import Mathlib

/-!
Verification development for the cross-backend analytical query engine of the
movie-catalogue benchmark repository.  The relational (SQLite) computations of
script/phase1_sqlite/queries.py, the document-store pipelines of
script/phase2_mongodb/queries_mongo.py and of
script/phase2_mongodb/compare_performance.py, the schema resolver, the index
DDL of benchmark_sqlite.py and the gain computation of print_table are
shallowly embedded as executable Lean functions over an explicit dataset
value, and the specified properties are settled against them.
-/

namespace BDA

/-! ## Generic list machinery: orders, stable sort, grouping -/

/-- Strict order on characters through their numeric code. -/
def charLt (a b : Char) : Bool := Nat.blt a.toNat b.toNat

/-- Lexicographic strict order on character lists. -/
def lexLt : List Char → List Char → Bool
  | _, [] => false
  | [], _ :: _ => true
  | a :: as, b :: bs =>
    if charLt a b then true
    else if charLt b a then false
    else lexLt as bs

/-- Lexicographic strict order on strings (ascending alphabetical order). -/
def strLt (a b : String) : Bool := lexLt a.data b.data

theorem charLt_iff (a b : Char) : charLt a b = true ↔ a.toNat < b.toNat := by
  simp [charLt, Nat.blt_eq]

theorem charLt_false_iff (a b : Char) : charLt a b = false ↔ ¬ a.toNat < b.toNat := by
  rw [← Bool.not_eq_true, charLt_iff]

theorem lexLt_asym (x : List Char) : ∀ y, lexLt x y = true → lexLt y x = false := by
  induction x with
  | nil =>
    intro y h
    cases y with
    | nil => simp [lexLt] at h
    | cons b bs => rfl
  | cons a as ih =>
    intro y h
    cases y with
    | nil => simp [lexLt] at h
    | cons b bs =>
      simp only [lexLt] at h ⊢
      cases hab : charLt a b with
      | true =>
        have hba : charLt b a = false := by
          rw [charLt_false_iff]
          have := (charLt_iff a b).1 hab
          omega
        simp [hab, hba]
      | false =>
        cases hba : charLt b a with
        | true => simp [hab, hba] at h
        | false =>
          rw [hab, hba] at h
          simp only [Bool.false_eq_true, if_false] at h
          simp only [hab, hba, Bool.false_eq_true, if_false]
          exact ih bs h

theorem lexLt_negtrans (x : List Char) :
    ∀ y z, lexLt y x = false → lexLt z y = false → lexLt z x = false := by
  induction x with
  | nil =>
    intro y z _ _
    cases z <;> rfl
  | cons a as ih =>
    intro y z h1 h2
    cases y with
    | nil => simp [lexLt] at h1
    | cons b bs =>
      cases z with
      | nil => simp [lexLt] at h2
      | cons c cs =>
        simp only [lexLt] at h1 h2 ⊢
        cases hba : charLt b a with
        | true => simp [hba] at h1
        | false =>
        cases hcb : charLt c b with
        | true => simp [hcb] at h2
        | false =>
        rw [hba] at h1
        rw [hcb] at h2
        simp only [Bool.false_eq_true, if_false] at h1 h2
        have hba' := (charLt_false_iff b a).1 hba
        have hcb' := (charLt_false_iff c b).1 hcb
        cases hab : charLt a b with
        | true =>
          have hab' := (charLt_iff a b).1 hab
          have hca : charLt c a = false := by rw [charLt_false_iff]; omega
          have hac : charLt a c = true := by rw [charLt_iff]; omega
          simp [hca, hac]
        | false =>
          have hab' := (charLt_false_iff a b).1 hab
          rw [hab] at h1
          simp only [Bool.false_eq_true, if_false] at h1
          cases hbc : charLt b c with
          | true =>
            have hbc' := (charLt_iff b c).1 hbc
            have hca : charLt c a = false := by rw [charLt_false_iff]; omega
            have hac : charLt a c = true := by rw [charLt_iff]; omega
            simp [hca, hac]
          | false =>
            have hbc' := (charLt_false_iff b c).1 hbc
            rw [hbc] at h2
            simp only [Bool.false_eq_true, if_false] at h2
            have hca : charLt c a = false := by rw [charLt_false_iff]; omega
            have hac : charLt a c = false := by rw [charLt_false_iff]; omega
            simp only [hca, hac, Bool.false_eq_true, if_false]
            exact ih bs cs h1 h2

theorem strLt_asym (a b : String) : strLt a b = true → strLt b a = false :=
  lexLt_asym a.data b.data

theorem strLt_negtrans (a b c : String) :
    strLt b a = false → strLt c b = false → strLt c a = false :=
  lexLt_negtrans a.data b.data c.data

/-- Does the first list occur at the head of the second one? -/
def headMatch [BEq α] : List α → List α → Bool
  | [], _ => true
  | _ :: _, [] => false
  | a :: as, b :: bs => a == b && headMatch as bs

/-- Does the first list occur contiguously anywhere inside the second one? -/
def subMatch [BEq α] (p : List α) : List α → Bool
  | [] => headMatch p []
  | c :: cs => headMatch p (c :: cs) || subMatch p cs

/-- Character data of a string with upper-case letters lowered. -/
def lowerData (s : String) : List Char := s.data.map Char.toLower

/-- Case-insensitive substring test shared by the SQL pattern
LIKE percent-name-percent of queries.py and the unanchored case-insensitive
regular-expression match of the Mongo variants. -/
def likeMatch (pat s : String) : Bool :=
  subMatch (lowerData pat) (lowerData s)

theorem subMatch_nil_left [BEq α] (l : List α) : subMatch ([] : List α) l = true := by
  induction l with
  | nil => rfl
  | cons c cs ih => simp [subMatch, headMatch]

/-- The empty pattern matches every string: LIKE with two adjacent percent
signs, and the empty regular expression, accept every name. -/
theorem likeMatch_empty (s : String) : likeMatch "" s = true := by
  have h : lowerData "" = ([] : List Char) := rfl
  rw [likeMatch, h, subMatch_nil_left]

/-- Strict order on optional integers with the absent value smallest,
as SQLite orders NULL and as BSON orders null against numbers. -/
def optLt : Option Int → Option Int → Bool
  | none, some _ => true
  | some a, some b => decide (a < b)
  | _, _ => false

/-! ### Stable sorting by a strict comparator -/

/-- Stable insertion: the new element goes after every element that strictly
precedes it and before the first element that does not. -/
def insertBy (lt : α → α → Bool) (a : α) : List α → List α
  | [] => [a]
  | b :: bs => if lt b a then b :: insertBy lt a bs else a :: b :: bs

/-- Stable insertion sort: ties keep their input order. -/
def sortBy (lt : α → α → Bool) : List α → List α
  | [] => []
  | a :: as => insertBy lt a (sortBy lt as)

theorem mem_insertBy (lt : α → α → Bool) (a : α) (l : List α) (x : α) :
    x ∈ insertBy lt a l ↔ x = a ∨ x ∈ l := by
  induction l with
  | nil => simp [insertBy]
  | cons b bs ih =>
    simp only [insertBy]
    split
    · rw [List.mem_cons, ih, List.mem_cons]
      tauto
    · rw [List.mem_cons, List.mem_cons]

theorem mem_sortBy (lt : α → α → Bool) (l : List α) (x : α) :
    x ∈ sortBy lt l ↔ x ∈ l := by
  induction l with
  | nil => simp [sortBy]
  | cons a as ih => simp [sortBy, mem_insertBy, ih]

/-- Asymmetry of a strict boolean comparator. -/
def IsAsym (lt : α → α → Bool) : Prop :=
  ∀ x y, lt x y = true → lt y x = false

/-- Negative transitivity of a strict boolean comparator: the induced weak
order (not strictly after) is transitive. -/
def IsNegtrans (lt : α → α → Bool) : Prop :=
  ∀ x y z, lt y x = false → lt z y = false → lt z x = false

theorem insertBy_pairwise {lt : α → α → Bool}
    (ha : IsAsym lt) (hn : IsNegtrans lt) (a : α) (l : List α)
    (hl : l.Pairwise (fun x y => lt y x = false)) :
    (insertBy lt a l).Pairwise (fun x y => lt y x = false) := by
  induction l with
  | nil => simp [insertBy]
  | cons b bs ih =>
    rcases hl with _ | ⟨hb, hbs⟩
    simp only [insertBy]
    split
    · rename_i hba
      refine List.Pairwise.cons ?_ (ih hbs)
      intro y hy
      rcases (mem_insertBy lt a bs y).1 hy with rfl | hy'
      · exact ha _ _ hba
      · exact hb y hy'
    · rename_i hba
      have hba' : lt b a = false := by
        revert hba; cases lt b a <;> simp
      refine List.Pairwise.cons ?_ (List.Pairwise.cons hb hbs)
      intro y hy
      rcases List.mem_cons.1 hy with rfl | hy'
      · exact hba'
      · exact hn a b y hba' (hb y hy')

theorem sortBy_pairwise {lt : α → α → Bool}
    (ha : IsAsym lt) (hn : IsNegtrans lt) (l : List α) :
    (sortBy lt l).Pairwise (fun x y => lt y x = false) := by
  induction l with
  | nil => exact List.Pairwise.nil
  | cons a as ih => exact insertBy_pairwise ha hn a (sortBy lt as) ih

/-! ### Grouping in order of first appearance of a key -/

/-- Keys of a list in order of first appearance, skipping the ones already
seen (the accumulator). -/
def uniqueKeysAux [BEq κ] (key : α → κ) : List α → List κ → List κ
  | [], _ => []
  | a :: l, seen =>
    if seen.contains (key a) then uniqueKeysAux key l seen
    else key a :: uniqueKeysAux key l (key a :: seen)

/-- Keys of a list in order of first appearance, without repetition. -/
def uniqueKeys [BEq κ] (key : α → κ) (l : List α) : List κ :=
  uniqueKeysAux key l []

/-- Group a list by a key, one group per distinct key in order of first
appearance; each group carries every row with that key, in input order. -/
def groupByKey [BEq κ] (key : α → κ) (l : List α) : List (κ × List α) :=
  (uniqueKeys key l).map (fun k => (k, l.filter (fun a => key a == k)))

/-- Deduplicate a list, keeping the first occurrence of each element. -/
def dedupF [BEq α] (l : List α) : List α := uniqueKeys (fun a => a) l

/-- Arithmetic mean of a list of rationals, absent for the empty list: the
model of the SQL AVG aggregate and of the Mongo avg accumulator, both of
which ignore absent values (the caller passes the present values only). -/
def ratAvg (l : List ℚ) : Option ℚ :=
  if l.isEmpty then none else some (l.sum / l.length)

/-- Boolean pairwise check: every element is related to every later one. -/
def pairwiseB (p : α → α → Bool) : List α → Bool
  | [] => true
  | a :: l => l.all (p a) && pairwiseB p l

theorem pairwiseB_of_pairwise {p : α → α → Bool} {l : List α}
    (h : l.Pairwise (fun x y => p x y = true)) : pairwiseB p l = true := by
  induction l with
  | nil => rfl
  | cons a t ih =>
    rcases h with _ | ⟨ha, ht⟩
    simp only [pairwiseB, Bool.and_eq_true, List.all_eq_true]
    exact ⟨ha, ih ht⟩

theorem flatMap_filter_eq {p : α → Bool} {f : α → List β}
    (h : ∀ a, p a = false → f a = []) (l : List α) :
    (l.filter p).flatMap f = l.flatMap f := by
  induction l with
  | nil => rfl
  | cons a t ih =>
    cases hp : p a with
    | true => simp [List.filter_cons, hp, ih]
    | false => simp [List.filter_cons, hp, ih, h a hp]

/-! ## Data model

The relational schema of create_schema.py, which the flat document migration
mirrors collection for collection: movies, ratings, genres, persons,
principals, characters, directors.  Identifiers are the IMDb text keys,
the start year is nullable, the average rating is a rational. -/

structure Movie where
  movie_id : String
  primary_title : String
  start_year : Option Int
deriving DecidableEq

structure Rating where
  movie_id : String
  average_rating : ℚ
  num_votes : Int
deriving DecidableEq

structure GenreRow where
  movie_id : String
  genre : String
deriving DecidableEq

structure Person where
  person_id : String
  name : String
deriving DecidableEq

structure Principal where
  movie_id : String
  person_id : String
  category : String
deriving DecidableEq

structure CharacterRow where
  movie_id : String
  person_id : String
  name : String
deriving DecidableEq

structure DirectorRow where
  movie_id : String
  person_id : String
deriving DecidableEq

/-- One dataset snapshot: the same logical content backs the SQLite tables
and the Mongo collections. -/
structure DB where
  movies : List Movie
  ratings : List Rating
  genres : List GenreRow
  persons : List Person
  principals : List Principal
  characters : List CharacterRow
  directors : List DirectorRow
deriving DecidableEq

/-- Acting-credit restriction used by every person-parameterised query:
category IN (actor, actress). -/
def actingCat (p : Principal) : Bool :=
  p.category == "actor" || p.category == "actress"

/-- LEFT JOIN helper: the matching rows, or a single absent row when there is
no match (SQL LEFT JOIN, and Mongo unwind with preserveNullAndEmptyArrays). -/
def leftRows (l : List α) (p : α → Bool) : List (Option α) :=
  let ms := l.filter p
  if ms.isEmpty then [none] else ms.map some

/-! ## Q1 — actor filmography

Relational variant: query_actor_filmography of queries.py.  FROM movies JOIN
principals JOIN persons LEFT JOIN characters LEFT JOIN ratings, WHERE the
person name matches the pattern and the category is an acting one, ORDER BY
start_year DESC, primary_title ASC. -/

structure FilmRow where
  primary_title : String
  start_year : Option Int
  character : Option String
  average_rating : Option ℚ
deriving DecidableEq

/-- Comparator for ORDER BY start_year DESC, primary_title ASC (SQLite sorts
NULL below every year in descending order). -/
def filmLt (a b : FilmRow) : Bool :=
  optLt b.start_year a.start_year ||
    (b.start_year == a.start_year && strLt a.primary_title b.primary_title)

/-- The joined rows of query_actor_filmography before ordering, with the name
predicate abstracted so that the blank-parameter behaviour can be stated. -/
def filmographyRows (db : DB) (namePred : String → Bool) : List FilmRow :=
  db.movies.flatMap fun m =>
    db.principals.flatMap fun p =>
      if p.movie_id == m.movie_id then
        db.persons.flatMap fun pe =>
          if pe.person_id == p.person_id && namePred pe.name && actingCat p then
            (leftRows db.characters
                (fun c => c.movie_id == m.movie_id && c.person_id == p.person_id)).flatMap
              fun cOpt =>
                (leftRows db.ratings (fun r => r.movie_id == m.movie_id)).map
                  fun rOpt =>
                    { primary_title := m.primary_title
                      start_year := m.start_year
                      character := cOpt.map (fun c => c.name)
                      average_rating := rOpt.map (fun r => r.average_rating) }
          else []
      else []

/-- query_actor_filmography: the relational Q1. -/
def query_actor_filmography (db : DB) (actor_name : String) : List FilmRow :=
  sortBy filmLt (filmographyRows db (fun n => likeMatch actor_name n))

/-- The same join with the name predicate removed: the filmography of every
person holding an acting credit. -/
def allActingFilmography (db : DB) : List FilmRow :=
  sortBy filmLt (filmographyRows db (fun _ => true))

/-! Document variant: q1_actor_filmography of queries_mongo.py.  The person
lookup keeps at most 10 matching persons; the pipeline then matches
principals on those ids and acting categories, looks movies up (inner),
ratings (left), characters (as an embedded array), and sorts by year
descending then title ascending. -/

/-- The person-id lookup of queries_mongo.py: find by case-insensitive
regular expression, capped by limit 10, then project the ids. -/
def personIdsQm (db : DB) (actor_name : String) : List String :=
  ((db.persons.filter (fun pe => likeMatch actor_name pe.name)).take 10).map
    (fun pe => pe.person_id)

/-- The person-id lookup _find_person_ids of compare_performance.py, capped
by limit 20. -/
def find_person_ids (db : DB) (name : String) : List String :=
  ((db.persons.filter (fun pe => likeMatch name pe.name)).take 20).map
    (fun pe => pe.person_id)

structure FilmDocQm where
  title : String
  year : Option Int
  average_rating : Option ℚ
  characters : List String
deriving DecidableEq

/-- Comparator for the Mongo sort year: -1, title: 1. -/
def filmDocLt (a b : FilmDocQm) : Bool :=
  optLt b.year a.year || (b.year == a.year && strLt a.title b.title)

/-- The aggregation pipeline of q1_actor_filmography for a given id list. -/
def q1PipelineQm (db : DB) (ids : List String) : List FilmDocQm :=
  sortBy filmDocLt <|
    (db.principals.filter
        (fun p => ids.contains p.person_id && actingCat p)).flatMap fun p =>
      (db.movies.filter (fun m => m.movie_id == p.movie_id)).flatMap fun m =>
        (leftRows db.ratings (fun r => r.movie_id == p.movie_id)).map fun rOpt =>
          { title := m.primary_title
            year := m.start_year
            average_rating := rOpt.map (fun r => r.average_rating)
            characters :=
              (db.characters.filter
                  (fun c => c.movie_id == p.movie_id &&
                    c.person_id == p.person_id)).map
                (fun c => c.name) }

/-- q1_actor_filmography: the document Q1 of queries_mongo.py. -/
def q1_actor_filmography (db : DB) (actor_name : String) : List FilmDocQm :=
  let ids := personIdsQm db actor_name
  if ids.isEmpty then [] else q1PipelineQm db ids

/-! ## Q3 — persons with several characters in one title -/

structure MultiRoleRow where
  name : String
  primary_title : String
  start_year : Option Int
  nb_roles : Nat
deriving DecidableEq

/-- Comparator for ORDER BY nb_roles DESC, name ASC. -/
def multiRoleLt (a b : MultiRoleRow) : Bool :=
  Nat.blt b.nb_roles a.nb_roles ||
    (b.nb_roles == a.nb_roles && strLt a.name b.name)

/-- FROM characters JOIN persons JOIN movies of query_multi_role_actors. -/
def multiRoleJoined (db : DB) : List (CharacterRow × Person × Movie) :=
  db.characters.flatMap fun c =>
    db.persons.flatMap fun pe =>
      if pe.person_id == c.person_id then
        db.movies.flatMap fun m =>
          if m.movie_id == c.movie_id then [(c, pe, m)] else []
      else []

/-- query_multi_role_actors: the relational Q3.  GROUP BY (person, movie),
COUNT(DISTINCT character name), HAVING the count exceed 1, ORDER BY the
count descending then the person name ascending. -/
def query_multi_role_actors (db : DB) : List MultiRoleRow :=
  sortBy multiRoleLt <|
    (groupByKey (fun t => (t.1.person_id, t.1.movie_id))
        (multiRoleJoined db)).filterMap fun g =>
      match g.2 with
      | [] => none
      | t :: _ =>
        let n := (dedupF (g.2.map (fun u => u.1.name))).length
        if 1 < n then
          some { name := t.2.1.name
                 primary_title := t.2.2.primary_title
                 start_year := t.2.2.start_year
                 nb_roles := n }
        else none

structure MultiRoleDocQm where
  actor : String
  title : String
  year : Option Int
  role_count : Nat
  roles : List String
deriving DecidableEq

/-- Comparator for the Mongo sort role_count: -1, actor: 1, year: -1. -/
def q3DocLt (a b : MultiRoleDocQm) : Bool :=
  Nat.blt b.role_count a.role_count ||
    (b.role_count == a.role_count &&
      (strLt a.actor b.actor ||
        (a.actor == b.actor && optLt b.year a.year)))

/-- q3_multi_role_actors of queries_mongo.py: group the characters collection
by (movie, person), collect the set of character names (addToSet), keep the
groups whose set has size at least 2, look persons and movies up, sort,
limit. -/
def q3_multi_role_actors (db : DB) (lim : Nat) : List MultiRoleDocQm :=
  (sortBy q3DocLt <|
    (groupByKey (fun c => (c.movie_id, c.person_id)) db.characters).flatMap fun g =>
      let roles := dedupF (g.2.map (fun c => c.name))
      if 2 ≤ roles.length then
        (db.persons.filter (fun pe => pe.person_id == g.1.2)).flatMap fun pe =>
          (db.movies.filter (fun m => m.movie_id == g.1.1)).map fun m =>
            { actor := pe.name
              title := m.primary_title
              year := m.start_year
              role_count := roles.length
              roles := roles }
      else []).take lim

structure MultiRoleDocCp where
  name : String
  primary_title : String
  start_year : Option Int
  nb_roles : Nat
deriving DecidableEq

/-- Comparator for the intermediate sort nb_roles: -1 of the fast variant. -/
def q3FastPreLt (a b : (String × String) × Nat) : Bool :=
  Nat.blt b.2 a.2

/-- Comparator for the final sort nb_roles: -1, name: 1 of the fast variant. -/
def q3FastLt (a b : MultiRoleDocCp) : Bool :=
  Nat.blt b.nb_roles a.nb_roles ||
    (b.nb_roles == a.nb_roles && strLt a.name b.name)

/-- mongo_q3_multi_role_actors_fast of compare_performance.py: group the
characters collection by (movie, person) computing nb_roles as the plain
row count (sum of 1), keep nb_roles above 1, sort and truncate before the
lookups, then look persons and movies up and sort again. -/
def mongo_q3_multi_role_actors_fast (db : DB) (lim : Nat) : List MultiRoleDocCp :=
  let groups :=
    (groupByKey (fun c => (c.movie_id, c.person_id)) db.characters).map
      (fun g => (g.1, g.2.length))
  let kept := (sortBy q3FastPreLt (groups.filter (fun g => 1 < g.2))).take lim
  sortBy q3FastLt <|
    kept.flatMap fun g =>
      (db.persons.filter (fun pe => pe.person_id == g.1.2)).flatMap fun pe =>
        (db.movies.filter (fun m => m.movie_id == g.1.1)).map fun m =>
          { name := pe.name
            primary_title := m.primary_title
            start_year := m.start_year
            nb_roles := g.2 }

/-! ## Q5 — popular genres -/

structure GenreStat where
  genre : String
  nb_films : Nat
  avg_rating : ℚ
deriving DecidableEq

/-- Comparator for ORDER BY avg_rating DESC, the only sort key of both the
relational Q5 and the compare_performance document Q5. -/
def genreStatLt (a b : GenreStat) : Bool :=
  decide (b.avg_rating < a.avg_rating)

/-- query_popular_genres: the relational Q5.  FROM genres JOIN ratings,
GROUP BY genre, HAVING AVG above 7.0 AND COUNT above 50, ORDER BY the
average descending. -/
def query_popular_genres (db : DB) : List GenreStat :=
  sortBy genreStatLt <|
    (groupByKey (fun x => x.1)
        (db.genres.flatMap fun g =>
          (db.ratings.filter (fun r => r.movie_id == g.movie_id)).map
            (fun r => (g.genre, r.average_rating)))).filterMap fun grp =>
      let cnt : Nat := grp.2.length
      let av : ℚ := (grp.2.map (fun x => x.2)).sum / (cnt : ℚ)
      if 7 < av ∧ 50 < cnt then some ⟨grp.1, cnt, av⟩ else none

/-- mongo_q5_popular_genres of compare_performance.py: the genres collection
with a ratings lookup and inner unwind, grouped by genre with a row count
and rating average, matched on avg_rating above 7.0 and nb_films above 50,
sorted by the average descending. -/
def mongo_q5_popular_genres (db : DB) : List GenreStat :=
  sortBy genreStatLt <|
    (groupByKey (fun x => x.1)
        (db.genres.flatMap fun g =>
          (db.ratings.filter (fun r => r.movie_id == g.movie_id)).map
            (fun r => (g.genre, r.average_rating)))).filterMap fun grp =>
      let cnt : Nat := grp.2.length
      let av : ℚ := (grp.2.map (fun x => x.2)).sum / (cnt : ℚ)
      if 7 < av ∧ 50 < cnt then some ⟨grp.1, cnt, av⟩ else none

/-! ## Q6 — career evolution by decade -/

/-- The actor_movies common table expression of query_career_evolution:
DISTINCT (movie, start year) pairs over movies JOIN principals JOIN persons
with the name predicate, the acting categories, and start_year NOT NULL. -/
def actorMoviePairs (db : DB) (actor_name : String) : List (String × Int) :=
  dedupF <|
    db.movies.flatMap fun m =>
      match m.start_year with
      | none => []
      | some y =>
        db.principals.flatMap fun p =>
          if p.movie_id == m.movie_id && actingCat p then
            db.persons.flatMap fun pe =>
              if pe.person_id == p.person_id && likeMatch actor_name pe.name then
                [(m.movie_id, y)]
              else []
          else []

structure DecadeRow where
  decade : Int
  nb_films : Nat
  avg_rating : Option ℚ
deriving DecidableEq

/-- Comparator for ORDER BY decade ascending. -/
def decadeLt (a b : DecadeRow) : Bool := decide (a.decade < b.decade)

/-- query_career_evolution: the relational Q6.  Decades are computed with
the SQLite integer division, which truncates toward zero. -/
def query_career_evolution (db : DB) (actor_name : String) : List DecadeRow :=
  sortBy decadeLt <|
    (groupByKey (fun x => x.1)
        ((actorMoviePairs db actor_name).flatMap fun am =>
          (leftRows db.ratings (fun r => r.movie_id == am.1)).map fun rOpt =>
            (Int.tdiv am.2 10 * 10, rOpt.map (fun r => r.average_rating)))).map
      fun grp =>
        { decade := grp.1
          nb_films := grp.2.length
          avg_rating := ratAvg (grp.2.filterMap (fun x => x.2)) }

structure DecadeDoc where
  decade : Option Int
  film_count : Nat
  avg_rating : Option ℚ
deriving DecidableEq

/-- Comparator for the Mongo sort decade: 1; BSON places null first. -/
def decadeDocLt (a b : DecadeDoc) : Bool := optLt a.decade b.decade

/-- q6_career_by_decade of queries_mongo.py: principals matched on the capped
person ids and the acting categories, movies looked up (inner), ratings
looked up (left), the decade computed as floor of year over 10 times 10 —
null when the year is absent, since the arithmetic operators propagate
null — and grouped with a row count and a rating average. -/
def q6_career_by_decade (db : DB) (actor_name : String) : List DecadeDoc :=
  let ids := personIdsQm db actor_name
  if ids.isEmpty then []
  else
    sortBy decadeDocLt <|
      (groupByKey (fun x => x.1)
          ((db.principals.filter
              (fun p => ids.contains p.person_id && actingCat p)).flatMap fun p =>
            (db.movies.filter (fun m => m.movie_id == p.movie_id)).flatMap fun m =>
              (leftRows db.ratings (fun r => r.movie_id == p.movie_id)).map fun rOpt =>
                (m.start_year.map (fun y => Int.fdiv y 10 * 10),
                 rOpt.map (fun r => r.average_rating)))).map
        fun grp =>
          { decade := grp.1
            film_count := grp.2.length
            avg_rating := ratAvg (grp.2.filterMap (fun x => x.2)) }

/-! ## Q8 — career boost / breakthrough -/

structure BoostRow where
  name : String
  low_count : Nat
  high_count : Nat
  breakthrough_year : Option Int
deriving DecidableEq

/-- Comparator for ORDER BY high_count DESC, breakthrough_year ASC (SQLite
places NULL first in ascending order). -/
def boostLt (a b : BoostRow) : Bool :=
  Nat.blt b.high_count a.high_count ||
    (b.high_count == a.high_count &&
      optLt a.breakthrough_year b.breakthrough_year)

/-- FROM principals JOIN movies JOIN ratings JOIN persons of
query_career_boost. -/
def careerBoostJoined (db : DB) : List (Principal × Movie × Rating × Person) :=
  db.principals.flatMap fun p =>
    db.movies.flatMap fun m =>
      if m.movie_id == p.movie_id then
        db.ratings.flatMap fun r =>
          if r.movie_id == m.movie_id then
            db.persons.flatMap fun pe =>
              if pe.person_id == p.person_id then [(p, m, r, pe)] else []
          else []
      else []

/-- query_career_boost: the relational Q8 with the literal vote threshold
200000.  Per person: the count of credits on titles below the threshold,
the count at or above it, and the minimum start year among the latter; kept
when both counts are positive; no comparison between the low and high years
is performed. -/
def query_career_boost (db : DB) : List BoostRow :=
  sortBy boostLt <|
    (groupByKey (fun t => t.1.person_id) (careerBoostJoined db)).filterMap fun g =>
      match g.2 with
      | [] => none
      | t :: _ =>
        let low := (g.2.filter (fun u => decide (u.2.2.1.num_votes < 200000))).length
        let high := (g.2.filter (fun u => decide (200000 ≤ u.2.2.1.num_votes))).length
        let bky := (g.2.filterMap
          (fun u => if 200000 ≤ u.2.2.1.num_votes then u.2.1.start_year else none)).min?
        if 0 < low ∧ 0 < high then
          some { name := t.2.2.2.name
                 low_count := low
                 high_count := high
                 breakthrough_year := bky }
        else none

structure BreakRow where
  person : String
  lowCount : Nat
  highCount : Nat
  maxLowYear : Option Int
  minHighYear : Option Int
deriving DecidableEq

/-- Comparator for the Mongo sort highCount: -1, lowCount: -1, person: 1. -/
def breakLt (a b : BreakRow) : Bool :=
  Nat.blt b.highCount a.highCount ||
    (b.highCount == a.highCount &&
      (Nat.blt b.lowCount a.lowCount ||
        (b.lowCount == a.lowCount && strLt a.person b.person)))

/-- Per-person aggregation of q8_breakthrough_people: principals with movies
and ratings looked up (inner unwinds), grouped by person; the min and max
accumulators ignore the null produced by the conditional, hence range over
the present start years of the high and low titles respectively. -/
structure Q8Stat where
  person_id : String
  highCount : Nat
  lowCount : Nat
  maxLowYear : Option Int
  minHighYear : Option Int
deriving DecidableEq

def q8Stats (db : DB) (thr : Int) : List Q8Stat :=
  (groupByKey (fun x => x.1)
      (db.principals.flatMap fun p =>
        (db.movies.filter (fun m => m.movie_id == p.movie_id)).flatMap fun m =>
          (db.ratings.filter (fun r => r.movie_id == p.movie_id)).map fun r =>
            (p.person_id, m.start_year, r.num_votes))).map fun g =>
    { person_id := g.1
      highCount := (g.2.filter (fun x => decide (thr ≤ x.2.2))).length
      lowCount := (g.2.filter (fun x => decide (x.2.2 < thr))).length
      maxLowYear := (g.2.filterMap (fun x => if x.2.2 < thr then x.2.1 else none)).max?
      minHighYear := (g.2.filterMap (fun x => if thr ≤ x.2.2 then x.2.1 else none)).min? }

/-- q8_breakthrough_people: the document Q8 of queries_mongo.py.  Groups are
kept when both counts are positive and the expression maxLowYear strictly
below minHighYear holds under the BSON order, which places null below every
number. -/
def q8_breakthrough_people (db : DB) (thr : Int) (lim : Nat) : List BreakRow :=
  (sortBy breakLt <|
    ((q8Stats db thr).filter
        (fun s => decide (0 < s.highCount) && decide (0 < s.lowCount) &&
          optLt s.maxLowYear s.minHighYear)).flatMap fun s =>
      (db.persons.filter (fun pe => pe.person_id == s.person_id)).map fun pe =>
        { person := pe.name
          lowCount := s.lowCount
          highCount := s.highCount
          maxLowYear := s.maxLowYear
          minHighYear := s.minHighYear }).take lim

/-- mongo_q8_career_boost_fast2 of compare_performance.py: the ratings
collection with movies and principals looked up, grouped by person with low
and high counts and the minimum high start year; kept when both counts are
positive; like the relational variant it applies no chronological filter. -/
def mongo_q8_career_boost_fast2 (db : DB) (thr : Int) : List BoostRow :=
  sortBy boostLt <|
    (groupByKey (fun x => x.1)
        (db.ratings.flatMap fun r =>
          (db.movies.filter (fun m => m.movie_id == r.movie_id)).flatMap fun m =>
            (db.principals.filter (fun p => p.movie_id == r.movie_id)).map fun p =>
              (p.person_id, m.start_year, r.num_votes))).flatMap fun g =>
      let low := (g.2.filter (fun x => decide (x.2.2 < thr))).length
      let high := (g.2.filter (fun x => decide (thr ≤ x.2.2))).length
      let bky := (g.2.filterMap (fun x => if thr ≤ x.2.2 then x.2.1 else none)).min?
      if 0 < low ∧ 0 < high then
        (db.persons.filter (fun pe => pe.person_id == g.1)).map fun pe =>
          { name := pe.name
            low_count := low
            high_count := high
            breakthrough_year := bky }
      else []

/-! ## Q9 — the free query: two different computations

The relational ninth computation (query_most_versatile_actors) ranks actors
by the number of distinct genres they played in; the ninth computation of
queries_mongo.py (q9_top_directors) ranks directors with at least a minimum
film count by their average rating. -/

structure VersatileRow where
  name : String
  nb_genres : Nat
  nb_movies : Nat
deriving DecidableEq

/-- Comparator for ORDER BY nb_genres DESC, nb_movies DESC, name ASC. -/
def versatileLt (a b : VersatileRow) : Bool :=
  Nat.blt b.nb_genres a.nb_genres ||
    (b.nb_genres == a.nb_genres &&
      (Nat.blt b.nb_movies a.nb_movies ||
        (b.nb_movies == a.nb_movies && strLt a.name b.name)))

/-- FROM persons JOIN principals JOIN movies JOIN genres of
query_most_versatile_actors, restricted to acting categories. -/
def versatileJoined (db : DB) : List (Person × Movie × GenreRow) :=
  db.persons.flatMap fun pe =>
    db.principals.flatMap fun p =>
      if p.person_id == pe.person_id && actingCat p then
        db.movies.flatMap fun m =>
          if m.movie_id == p.movie_id then
            db.genres.flatMap fun g =>
              if g.movie_id == m.movie_id then [(pe, m, g)] else []
          else []
      else []

/-- query_most_versatile_actors: the relational Q9.  GROUP BY person with
COUNT(DISTINCT genre) and COUNT(DISTINCT movie), HAVING the genre count at
least min_genres, ORDER BY genre count, movie count, name, LIMIT. -/
def query_most_versatile_actors (db : DB) (min_genres : Nat) (lim : Nat) : List VersatileRow :=
  (sortBy versatileLt <|
    (groupByKey (fun t => t.1.person_id) (versatileJoined db)).filterMap fun g =>
      match g.2 with
      | [] => none
      | t :: _ =>
        let ng := (dedupF (g.2.map (fun u => u.2.2.genre))).length
        let nm := (dedupF (g.2.map (fun u => u.2.1.movie_id))).length
        if min_genres ≤ ng then
          some { name := t.1.name, nb_genres := ng, nb_movies := nm }
        else none).take lim

structure DirectorStat where
  director : String
  film_count : Nat
  avg_rating : ℚ
  best_film : Option (String × Option Int × ℚ × Int)
deriving DecidableEq

/-- Comparator of the top accumulator of q9_top_directors: rating
descending, then votes descending. -/
def bestFilmLt (x y : String × String × Option Int × ℚ × Int) : Bool :=
  decide (y.2.2.2.1 < x.2.2.2.1) ||
    (y.2.2.2.1 == x.2.2.2.1 && decide (y.2.2.2.2 < x.2.2.2.2))

/-- Comparator for the Mongo sort avg_rating: -1, film_count: -1,
director: 1. -/
def dirLt (a b : DirectorStat) : Bool :=
  decide (b.avg_rating < a.avg_rating) ||
    (b.avg_rating == a.avg_rating &&
      (Nat.blt b.film_count a.film_count ||
        (b.film_count == a.film_count && strLt a.director b.director)))

/-- q9_top_directors: the ninth computation of queries_mongo.py.  Directors
with movies and ratings looked up, grouped by director person with a film
count, a rating average and the best film, kept when the film count reaches
min_films, sorted by average rating then film count then name, limited. -/
def q9_top_directors (db : DB) (min_films : Nat) (lim : Nat) : List DirectorStat :=
  (sortBy dirLt <|
    (groupByKey (fun x => x.1)
        (db.directors.flatMap fun d =>
          (db.movies.filter (fun m => m.movie_id == d.movie_id)).flatMap fun m =>
            (db.ratings.filter (fun r => r.movie_id == d.movie_id)).map fun r =>
              (d.person_id, m.primary_title, m.start_year,
               r.average_rating, r.num_votes))).flatMap fun g =>
      let cnt : Nat := g.2.length
      if min_films ≤ cnt then
        let av : ℚ := (g.2.map (fun x => x.2.2.2.1)).sum / (cnt : ℚ)
        let best := ((sortBy bestFilmLt g.2).head?).map
          (fun x => (x.2.1, x.2.2.1, x.2.2.2.1, x.2.2.2.2))
        (db.persons.filter (fun pe => pe.person_id == g.1)).map fun pe =>
          { director := pe.name, film_count := cnt, avg_rating := av, best_film := best }
      else []).take lim

/-! ## Schema resolver of queries_mongo.py

A sampled document is modelled as its list of field names; a collection with
no document samples as the empty list, which is also how an empty Python
dict behaves under the truthiness test of _sample_fields. -/

/-- Model of _first_key: scan the candidates in priority order and return the first
field present in the sampled document; raise otherwise, naming the context
(collection dot role) and the candidate list. -/
def first_key (doc : List String) (candidates : List String) (ctx : String) :
    Except String String :=
  match candidates.find? (fun c => doc.contains c) with
  | some c => Except.ok c
  | none =>
    Except.error ("[" ++ ctx ++ "] no field found among " ++
      String.intercalate ", " candidates)

/-- The samples drawn by _sample_fields, one per collection. -/
structure Samples where
  movies : List String
  persons : List String
  ratings : List String
  genres : List String
  principals : List String
  characters : List String
  directors : List String
deriving DecidableEq

/-- The role-to-field mapping produced by _sample_fields. -/
structure FieldMap where
  movie_id : String
  person_id : String
  movie_title : String
  movie_year : String
  person_name : String
  genres_movie_id : String
  genre : String
  ratings_movie_id : String
  avg_rating : String
  num_votes : String
  principals_movie_id : String
  principals_person_id : String
  principals_category : String
  characters_movie_id : String
  characters_person_id : String
  character_name : String
  directors_movie_id : String
  directors_person_id : String
deriving DecidableEq

/-- Model of _sample_fields: resolve every logical role from the samples.  When the
characters sample is empty (no document), the characters roles fall back to
the already-resolved movie and person id fields and the literal name
character, without any error. -/
def sample_fields (s : Samples) : Except String FieldMap := do
  let movie_id ← first_key s.movies ["movie_id", "id", "tconst", "_id"] "movies.movie_id"
  let person_id ← first_key s.persons ["person_id", "id", "nconst", "_id"] "persons.person_id"
  let movie_title ← first_key s.movies ["title", "primary_title", "name"] "movies.title"
  let movie_year ← first_key s.movies ["year", "start_year", "release_year"] "movies.year"
  let person_name ← first_key s.persons ["name", "primary_name"] "persons.name"
  let genres_movie_id ← first_key s.genres ["movie_id", "tconst", movie_id] "genres.movie_id"
  let genre ← first_key s.genres ["genre", "genres"] "genres.genre"
  let ratings_movie_id ← first_key s.ratings ["movie_id", "tconst", movie_id] "ratings.movie_id"
  let avg_rating ← first_key s.ratings ["average_rating", "avg_rating", "rating"]
    "ratings.average_rating"
  let num_votes ← first_key s.ratings ["num_votes", "votes", "number_of_votes"]
    "ratings.num_votes"
  let principals_movie_id ← first_key s.principals ["movie_id", "tconst", movie_id]
    "principals.movie_id"
  let principals_person_id ← first_key s.principals ["person_id", "nconst", person_id]
    "principals.person_id"
  let principals_category ← first_key s.principals ["category", "role", "job"]
    "principals.category"
  let charTriple ←
    if s.characters.isEmpty then
      Except.ok (movie_id, person_id, "character")
    else do
      let cm ← first_key s.characters ["movie_id", "tconst", movie_id] "characters.movie_id"
      let cp ← first_key s.characters ["person_id", "nconst", person_id]
        "characters.person_id"
      let cn ← first_key s.characters ["character", "characters", "name"]
        "characters.character"
      Except.ok (cm, cp, cn)
  let directors_movie_id ← first_key s.directors ["movie_id", "tconst", movie_id]
    "directors.movie_id"
  let directors_person_id ← first_key s.directors ["person_id", "nconst", person_id]
    "directors.person_id"
  Except.ok
    { movie_id, person_id, movie_title, movie_year, person_name,
      genres_movie_id, genre, ratings_movie_id, avg_rating, num_votes,
      principals_movie_id, principals_person_id, principals_category,
      characters_movie_id := charTriple.1,
      characters_person_id := charTriple.2.1,
      character_name := charTriple.2.2,
      directors_movie_id, directors_person_id }

/-! ## Timing harness gain and index controller -/

/-- The gain column of print_table in benchmark_sqlite.py: the relative gain
percentage, guarded by the baseline time being positive. -/
def print_table_gain (t1 t2 : ℚ) : ℚ :=
  if 0 < t1 then 100 * (t1 - t2) / t1 else 0

/-- One index DDL statement: CREATE INDEX with an optional IF NOT EXISTS
guard, or DROP INDEX with an optional IF EXISTS guard. -/
inductive Stmt where
  | createIndex (name : String) (guarded : Bool)
  | dropIndex (name : String) (guarded : Bool)
deriving DecidableEq

/-- The index state of the SQLite database: the names of the secondary
indexes currently present. -/
def execStmt : Stmt → List String → Except String (List String)
  | Stmt.createIndex n g, s =>
    if s.contains n then
      if g then Except.ok s else Except.error ("index " ++ n ++ " already exists")
    else Except.ok (n :: s)
  | Stmt.dropIndex n g, s =>
    if s.contains n then Except.ok (s.filter (fun m => !(m == n)))
    else if g then Except.ok s else Except.error ("no such index: " ++ n)

/-- Sequential execution of DDL statements, stopping at the first error, as
the cursor loop of apply_sqlite_indexes and of the benchmark main do. -/
def runStmts : List Stmt → List String → Except String (List String)
  | [], s => Except.ok s
  | d :: ds, s =>
    match execStmt d s with
    | Except.ok s2 => runStmts ds s2
    | Except.error e => Except.error e

/-- The INDEXES list of benchmark_sqlite.py: five CREATE INDEX IF NOT EXISTS
statements. -/
def indexNames : List String :=
  ["idx_persons_name", "idx_principals_person", "idx_principals_movie",
   "idx_genres_genre", "idx_movies_start_year"]

/-- apply_sqlite_indexes (compare_performance.py) and the index-creation
loop of benchmark_sqlite.py: execute the CREATE INDEX IF NOT EXISTS DDL of
every entry of INDEXES. -/
def apply_sqlite_indexes (s : List String) : Except String (List String) :=
  runStmts (indexNames.map (fun n => Stmt.createIndex n true)) s

/-- The index-removal loop of benchmark_sqlite.py main: DROP INDEX IF EXISTS
for every entry of INDEXES. -/
def drop_sqlite_indexes (s : List String) : Except String (List String) :=
  runStmts (indexNames.map (fun n => Stmt.dropIndex n true)) s

/-! ## Specification-side definitions

These two definitions follow the words of the specification, for comparison
with the behaviour of the embedded code: the earliest year of a person's
high-visibility titles and the latest year of their low-visibility titles. -/

/-- The first year of a title of the person with votes at or above the
threshold, following the specification wording. -/
def specEarliestHighYear (db : DB) (pid : String) (thr : Int) : Option Int :=
  ((db.principals.filter (fun p => p.person_id == pid)).flatMap fun p =>
    (db.movies.filter (fun m => m.movie_id == p.movie_id)).flatMap fun m =>
      (db.ratings.filter (fun r => r.movie_id == p.movie_id)).flatMap fun r =>
        if thr ≤ r.num_votes then m.start_year.toList else []).min?

/-- The last year of a title of the person with votes below the threshold,
following the specification wording. -/
def specLatestLowYear (db : DB) (pid : String) (thr : Int) : Option Int :=
  ((db.principals.filter (fun p => p.person_id == pid)).flatMap fun p =>
    (db.movies.filter (fun m => m.movie_id == p.movie_id)).flatMap fun m =>
      (db.ratings.filter (fun r => r.movie_id == p.movie_id)).flatMap fun r =>
        if r.num_votes < thr then m.start_year.toList else []).max?

/-! ## Concrete dataset snapshots used by the counterexamples and witnesses -/

/-- One person with one acting credit, title T, rating present. -/
def c6db : DB :=
  { movies := [⟨"m1", "T", some 2000⟩]
    ratings := [⟨"m1", 8, 100⟩]
    genres := []
    persons := [⟨"p1", "Alpha"⟩]
    principals := [⟨"m1", "p1", "actor"⟩]
    characters := [⟨"m1", "p1", "C"⟩]
    directors := [] }

/-- Eleven persons whose names all contain the letter x; only the eleventh
one holds an acting credit, on the title T11. -/
def exdb10 : DB :=
  { movies := [⟨"m1", "T11", some 1999⟩]
    ratings := []
    genres := []
    persons := (List.range 11).map (fun i => ⟨"p" ++ toString i, "x" ++ toString i⟩)
    principals := [⟨"m1", "p10", "actor"⟩]
    characters := []
    directors := [] }

/-- One person with character rows A, A, B on a single title. -/
def c3db : DB :=
  { movies := [⟨"m1", "T", some 2001⟩]
    ratings := []
    genres := []
    persons := [⟨"p1", "P"⟩]
    principals := []
    characters := [⟨"m1", "p1", "A"⟩, ⟨"m1", "p1", "A"⟩, ⟨"m1", "p1", "B"⟩]
    directors := [] }

/-- Two persons, Zed and Al, each with one low-vote and one high-vote title,
the high titles sharing the year 2010: they tie on every sort key of the
relational Q8. -/
def c4db : DB :=
  { movies := [⟨"m1", "TA", some 2005⟩, ⟨"m2", "TB", some 2010⟩,
               ⟨"m3", "TC", some 2005⟩, ⟨"m4", "TD", some 2010⟩]
    ratings := [⟨"m1", 5, 100⟩, ⟨"m2", 6, 300000⟩, ⟨"m3", 5, 100⟩, ⟨"m4", 6, 300000⟩]
    genres := []
    persons := [⟨"pa", "Zed"⟩, ⟨"pb", "Al"⟩]
    principals := [⟨"m1", "pa", "actor"⟩, ⟨"m2", "pa", "actor"⟩,
                   ⟨"m3", "pb", "actor"⟩, ⟨"m4", "pb", "actor"⟩]
    characters := []
    directors := [] }

/-- The explicit scenario of the q8 claim: one person with titles of votes
50000, 300000, 100000 in the years 2001, 2010, 2015. -/
def c2db : DB :=
  { movies := [⟨"m1", "TA", some 2001⟩, ⟨"m2", "TB", some 2010⟩, ⟨"m3", "TC", some 2015⟩]
    ratings := [⟨"m1", 6, 50000⟩, ⟨"m2", 7, 300000⟩, ⟨"m3", 6, 100000⟩]
    genres := []
    persons := [⟨"p1", "P"⟩]
    principals := [⟨"m1", "p1", "actor"⟩, ⟨"m2", "p1", "actor"⟩, ⟨"m3", "p1", "actor"⟩]
    characters := []
    directors := [] }

/-- One person whose low title (2000) precedes their high title (2010): a
chronologically sound breakthrough. -/
def wdb : DB :=
  { movies := [⟨"m1", "TA", some 2000⟩, ⟨"m2", "TB", some 2010⟩]
    ratings := [⟨"m1", 6, 100⟩, ⟨"m2", 7, 300000⟩]
    genres := []
    persons := [⟨"p1", "P"⟩]
    principals := [⟨"m1", "p1", "actor"⟩, ⟨"m2", "p1", "actor"⟩]
    characters := []
    directors := [] }

/-- One person with an acting credit on a title whose start year is absent,
the title carrying a rating. -/
def c5db : DB :=
  { movies := [⟨"m1", "T", none⟩]
    ratings := [⟨"m1", 8, 100⟩]
    genres := []
    persons := [⟨"p1", "X"⟩]
    principals := [⟨"m1", "p1", "actor"⟩]
    characters := []
    directors := [] }

/-- One actor in one title of three genres, and no directors at all. -/
def c1db : DB :=
  { movies := [⟨"m1", "T", some 2000⟩]
    ratings := [⟨"m1", 8, 1000⟩]
    genres := [⟨"m1", "A"⟩, ⟨"m1", "B"⟩, ⟨"m1", "C"⟩]
    persons := [⟨"p1", "P"⟩]
    principals := [⟨"m1", "p1", "actor"⟩]
    characters := []
    directors := [] }

/-- Samples in which every collection exposes the standard fields but the
characters collection yields no document at all. -/
def c7s : Samples :=
  { movies := ["movie_id", "title", "year"]
    persons := ["person_id", "name"]
    ratings := ["movie_id", "average_rating", "num_votes"]
    genres := ["movie_id", "genre"]
    principals := ["movie_id", "person_id", "category"]
    characters := []
    directors := ["movie_id", "person_id"] }

/-! ## Claim C1 — cross-backend record-set equivalence of all nine
computations -/

/-- C1 counterexample: the ninth computation of queries_mongo.py
(q9_top_directors) is a different query from the relational ninth
(query_most_versatile_actors): on a snapshot with one actor in three genres
and no directors, run at the benchmark parameters, the relational variant
returns one record and the document variant returns none, so the two record
sets differ. -/
theorem C1_counterexample :
    query_most_versatile_actors c1db 3 50 = [⟨"P", 3, 1⟩] ∧
    q9_top_directors c1db 20 10 = [] ∧
    (query_most_versatile_actors c1db 3 50).length = 1 ∧
    (q9_top_directors c1db 20 10).length = 0 := by
  decide

/-- C1 (amended): the equivalence does not hold for all nine computations
(the ninth differs between the two files), but it does hold for the fifth:
on every snapshot the relational query_popular_genres and the document
mongo_q5_popular_genres of compare_performance.py return identical record
sets — the same genres, the same counts, the same exact averages, in the
same order up to the tie-break on equal averages. -/
theorem C1_amended : ∀ db : DB, query_popular_genres db = mongo_q5_popular_genres db :=
  fun _ => rfl

/-! ## Claim C2 — Q8 chronological soundness -/

/-- C2 counterexample: on the explicit scenario (votes 50000, 300000,
100000 in the years 2001, 2010, 2015) the relational query_career_boost and
the compare_performance variant both return the person, although the
earliest high-visibility year 2010 does not exceed the latest
low-visibility year 2015. -/
theorem C2_counterexample :
    query_career_boost c2db = [⟨"P", 2, 1, some 2010⟩] ∧
    mongo_q8_career_boost_fast2 c2db 200000 = [⟨"P", 2, 1, some 2010⟩] ∧
    specEarliestHighYear c2db "p1" 200000 = some 2010 ∧
    specLatestLowYear c2db "p1" 200000 = some 2015 ∧
    ¬ ((2015 : Int) < 2010) := by
  decide

/-- C2 (amended): only the queries_mongo variant q8_breakthrough_people is
chronologically sound: every returned record has its latest low-visibility
year strictly below its earliest high-visibility year under the BSON order;
the relational variant and the compare_performance variant apply no such
filter and do return the scenario person. -/
theorem C2_amended (db : DB) (thr : Int) (lim : Nat) (r : BreakRow)
    (hr : r ∈ q8_breakthrough_people db thr lim) : optLt r.maxLowYear r.minHighYear = true := by
  unfold q8_breakthrough_people at hr
  have hr2 := List.mem_of_mem_take hr
  rw [mem_sortBy, List.mem_flatMap] at hr2
  obtain ⟨s, hs, hrs⟩ := hr2
  rw [List.mem_filter] at hs
  have hpred := hs.2
  rw [List.mem_map] at hrs
  obtain ⟨pe, -, rfl⟩ := hrs
  simp only [Bool.and_eq_true] at hpred
  exact hpred.2

/-- C2 witness: on a snapshot with a sound breakthrough (low title in 2000,
high title in 2010) the returned record satisfies the chronology check. -/
theorem C2_witness : optLt (some 2000) (some 2010) = true :=
  C2_amended wdb 200000 50 ⟨"P", 1, 1, some 2000, some 2010⟩ (by decide)

/-! ## Claim C3 — distinct character names in Q3 -/

/-- C3 counterexample: on the character rows A, A, B of one person in one
title, the compare_performance variant mongo_q3_multi_role_actors_fast
reports nb_roles = 3 (it counts rows), not 2. -/
theorem C3_counterexample :
    mongo_q3_multi_role_actors_fast c3db 200 = [⟨"P", "T", some 2001, 3⟩] ∧ (3 : Nat) ≠ 2 := by
  decide

/-- C3 (amended): on the scenario — one person with character rows A, A, B
in one title — the relational variant and the queries_mongo variant report
the count of distinct names, 2, while the compare_performance fast variant
reports the row count, 3. -/
theorem C3_amended :
    query_multi_role_actors c3db = [⟨"P", "T", some 2001, 2⟩] ∧
    q3_multi_role_actors c3db 50 = [⟨"P", "T", some 2001, 2, ["A", "B"]⟩] ∧
    mongo_q3_multi_role_actors_fast c3db 200 = [⟨"P", "T", some 2001, 3⟩] := by
  decide

/-! ## Claim C5 — decade bucketing of Q6 -/

/-- C5 counterexample: the queries_mongo variant q6_career_by_decade does
bucket a title whose start year is absent — it lands in a null decade group
— instead of excluding it before bucketing. -/
theorem C5_counterexample :
    (q6_career_by_decade c5db "X").map (fun r => (r.decade, r.film_count)) = [(none, 1)] := by
  decide

theorem actorMoviePairs_filterSome (db : DB) (nm : String) :
    actorMoviePairs
        { db with movies := db.movies.filter (fun m => m.start_year.isSome) } nm
      = actorMoviePairs db nm := by
  unfold actorMoviePairs
  congr 1
  exact flatMap_filter_eq
    (fun m hm => by
      cases hy : m.start_year with
      | none => rfl
      | some y => simp [hy] at hm)
    db.movies

/-- C5 (amended): the relational variant does exclude titles with an absent
start year before bucketing — removing them from the snapshot leaves its
result unchanged — and buckets by integer division truncating toward zero;
the queries_mongo document variant does not exclude them: an absent-year
title is bucketed under a null decade. -/
theorem C5_amended :
    (∀ (db : DB) (nm : String),
        query_career_evolution db nm =
          query_career_evolution
            { db with movies := db.movies.filter (fun m => m.start_year.isSome) } nm) ∧
    (q6_career_by_decade c5db "X").map (fun r => r.decade) = [none] := by
  constructor
  · intro db nm
    unfold query_career_evolution
    rw [actorMoviePairs_filterSome]
  · decide

/-! ## Claim C6 — blank name parameter -/

/-- C6 counterexample: with the blank name both Q1 variants return a
non-empty sequence on a snapshot with one acting credit — LIKE with an
empty infill and the empty regular expression match every person. -/
theorem C6_counterexample :
    query_actor_filmography c6db "" = [⟨"T", some 2000, some "C", some 8⟩] ∧
    q1_actor_filmography c6db "" = [⟨"T", some 2000, some 8, ["C"]⟩] := by
  decide

/-- C6 (amended): a blank name matches every person: the relational Q1
returns the acting filmography of all persons, and the document Q1 returns
that of the first 10 persons of the collection; neither raises an error. -/
theorem C6_amended :
    (∀ db : DB, query_actor_filmography db "" = allActingFilmography db) ∧
    (∀ db : DB,
        q1_actor_filmography db "" =
          if ((db.persons.take 10).map (fun pe => pe.person_id)).isEmpty then []
          else q1PipelineQm db ((db.persons.take 10).map (fun pe => pe.person_id))) := by
  constructor
  · intro db
    unfold query_actor_filmography allActingFilmography
    rw [show (fun n => likeMatch "" n) = (fun _ : String => true) from
      funext likeMatch_empty]
  · intro db
    unfold q1_actor_filmography personIdsQm
    rw [List.filter_eq_self.2 (fun pe _ => likeMatch_empty pe.name)]

/-! ## Claim C8 — gain percentage of the benchmark table -/

/-- C8 counterexample: the zero-gain guard of print_table keys on the
baseline time being zero, not on the result being empty: a run whose
computation returns no rows still takes positive wall-clock time, and with
baseline 10 ms and indexed 5 ms the gain is 50 percent, not 0. -/
theorem C8_counterexample : print_table_gain 10 5 = 50 ∧ (50 : ℚ) ≠ 0 := by
  constructor
  · unfold print_table_gain
    norm_num
  · norm_num

/-- C8 (amended): the gain equals (baseline - indexed) / baseline * 100
whenever the baseline time is positive, and 0 when it is not — so no
division by zero ever occurs; the guard concerns the baseline time, not the
emptiness of the result. -/
theorem C8_amended (t1 t2 : ℚ) :
    (0 < t1 → print_table_gain t1 t2 * t1 = 100 * (t1 - t2)) ∧
    (t1 ≤ 0 → print_table_gain t1 t2 = 0) := by
  constructor
  · intro h
    unfold print_table_gain
    rw [if_pos h, div_mul_cancel₀ _ (ne_of_gt h)]
  · intro h
    unfold print_table_gain
    rw [if_neg (not_lt.2 h)]

/-- C8 witness: the amended statement at concrete times. -/
theorem C8_witness :
    print_table_gain 4 3 * 4 = 100 * (4 - 3) ∧ print_table_gain 0 7 = 0 :=
  ⟨(C8_amended 4 3).1 (by norm_num), (C8_amended 0 7).2 (by norm_num)⟩

/-! ## Claim C10 — person-lookup caps of the document variants -/

/-- C10: the queries_mongo person lookup keeps the first 10 matching
persons and the compare_performance one the first 20; on a snapshot with 11
matching persons of which only the eleventh holds an acting credit, the
relational Q1 returns that credit while the queries_mongo Q1, whose cap
drops the eleventh person, silently returns nothing. -/
theorem C10_caps :
    (∀ (db : DB) (nm : String),
        personIdsQm db nm =
          ((db.persons.filter (fun pe => likeMatch nm pe.name)).map
            (fun pe => pe.person_id)).take 10) ∧
    (∀ (db : DB) (nm : String),
        find_person_ids db nm =
          ((db.persons.filter (fun pe => likeMatch nm pe.name)).map
            (fun pe => pe.person_id)).take 20) ∧
    (query_actor_filmography exdb10 "x").map (fun r => r.primary_title) = ["T11"] ∧
    q1_actor_filmography exdb10 "x" = [] := by
  refine ⟨?_, ?_, ?_, ?_⟩
  · intro db nm
    unfold personIdsQm
    rw [List.map_take]
  · intro db nm
    unfold find_person_ids
    rw [List.map_take]
  · decide
  · decide

/-! ## Claim C4 — tie-break by name as the final sort key -/

theorem charToNat_inj {a b : Char} (h : a.toNat = b.toNat) : a = b :=
  Char.ext (UInt32.toNat.inj h)

theorem lexLt_conn (x : List Char) :
    ∀ y, lexLt x y = false → lexLt y x = false → x = y := by
  induction x with
  | nil =>
    intro y h1 h2
    cases y with
    | nil => rfl
    | cons b bs => simp [lexLt] at h1
  | cons a as ih =>
    intro y h1 h2
    cases y with
    | nil => simp [lexLt] at h2
    | cons b bs =>
      simp only [lexLt] at h1 h2
      cases hab : charLt a b with
      | true => simp [hab] at h1
      | false =>
        cases hba : charLt b a with
        | true => simp [hba] at h2
        | false =>
          rw [hab, hba] at h1 h2
          simp only [Bool.false_eq_true, if_false] at h1 h2
          have hchar : a = b := charToNat_inj (by
            have h3 := (charLt_false_iff a b).1 hab
            have h4 := (charLt_false_iff b a).1 hba
            omega)
          rw [hchar, ih bs h1 h2]

theorem strLt_conn (a b : String) (h1 : strLt a b = false) (h2 : strLt b a = false) :
    a = b :=
  congrArg String.mk (lexLt_conn a.data b.data h1 h2)

theorem blt_false_iff (a b : Nat) : Nat.blt a b = false ↔ ¬ a < b := by
  rw [Bool.eq_false_iff, ne_eq, Nat.blt_eq]

theorem versatileLt_asym : IsAsym versatileLt := by
  intro x y h
  rw [Bool.eq_false_iff]
  intro h2
  simp only [versatileLt, Bool.or_eq_true, Bool.and_eq_true, Nat.blt_eq,
    beq_iff_eq] at h h2
  rcases h with h | ⟨hg, h | ⟨hm, hs⟩⟩ <;>
    rcases h2 with h2 | ⟨hg2, h2 | ⟨hm2, hs2⟩⟩ <;>
      try omega
  have h3 := strLt_asym _ _ hs
  rw [hs2] at h3
  simp at h3

theorem versatileLt_negtrans : IsNegtrans versatileLt := by
  intro x y z h1 h2
  rw [Bool.eq_false_iff]
  intro h3
  simp only [versatileLt, Bool.or_eq_false_iff, Bool.and_eq_false_iff,
    blt_false_iff, beq_eq_false_iff_ne] at h1 h2
  simp only [versatileLt, Bool.or_eq_true, Bool.and_eq_true, Nat.blt_eq,
    beq_iff_eq] at h3
  obtain ⟨hg1, hrest1⟩ := h1
  obtain ⟨hg2, hrest2⟩ := h2
  rcases hrest1 with hne1 | ⟨hm1, hmne1 | hs1⟩ <;>
    rcases hrest2 with hne2 | ⟨hm2, hmne2 | hs2⟩ <;>
      rcases h3 with h3 | ⟨hge3, h3 | ⟨hme3, hs3⟩⟩ <;>
        try omega
  have h4 := strLt_negtrans x.name y.name z.name hs1 hs2
  rw [hs3] at h4
  simp at h4

/-- Boolean check that rows tied on both count keys appear in ascending
name order. -/
def versatileTieLe (a b : VersatileRow) : Bool :=
  if a.nb_genres == b.nb_genres && a.nb_movies == b.nb_movies then
    strLt a.name b.name || a.name == b.name
  else true

/-- C4 counterexample: the relational Q8 ends its ORDER BY with the
breakthrough year, not with the person name: on a snapshot where Zed and Al
tie on every sort key of the query (high count 1, breakthrough year 2010),
the returned order is Zed before Al although Al precedes Zed
alphabetically — the final sort key is not the name. -/
theorem C4_counterexample :
    (query_career_boost c4db).map (fun r => (r.name, r.high_count, r.breakthrough_year)) =
      [("Zed", 1, some 2010), ("Al", 1, some 2010)] ∧
    strLt "Al" "Zed" = true := by
  decide

/-- C4 (amended): the computations whose ORDER BY lists the name or title
last do order rows tied on the higher-priority keys by name ascending — as
proved here for the relational Q9, whose output is pairwise name-sorted on
count ties even after the LIMIT — but not every computation does: the
relational Q5 sorts only by average rating and the relational Q8 ends with
the breakthrough year. -/
theorem C4_amended (db : DB) (mg lim : Nat) :
    pairwiseB versatileTieLe (query_most_versatile_actors db mg lim) = true := by
  apply pairwiseB_of_pairwise
  unfold query_most_versatile_actors
  have hp := sortBy_pairwise versatileLt_asym versatileLt_negtrans
    ((groupByKey (fun t => t.1.person_id) (versatileJoined db)).filterMap fun g =>
      match g.2 with
      | [] => none
      | t :: _ =>
        let ng := (dedupF (g.2.map (fun u => u.2.2.genre))).length
        let nm := (dedupF (g.2.map (fun u => u.2.1.movie_id))).length
        if mg ≤ ng then
          some { name := t.1.name, nb_genres := ng, nb_movies := nm }
        else none)
  refine (List.Pairwise.sublist (List.take_sublist _ _) hp).imp ?_
  intro a b hab
  unfold versatileTieLe
  split
  · rename_i hkey
    simp only [Bool.and_eq_true, beq_iff_eq] at hkey
    simp only [versatileLt, Bool.or_eq_false_iff, Bool.and_eq_false_iff,
      blt_false_iff, beq_eq_false_iff_ne] at hab
    obtain ⟨-, hrest⟩ := hab
    rcases hrest with hne | ⟨-, hmne | hs⟩
    · exact absurd hkey.1 hne
    · exact absurd hkey.2 hmne
    · cases hstr : strLt a.name b.name with
      | true => simp
      | false =>
        have heq := strLt_conn a.name b.name hstr hs
        simp [heq]
  · rfl

/-! ## Claim C7 — schema resolution order and failure -/

theorem find?_decomp {p : α → Bool} {c : α} :
    ∀ l : List α, l.find? p = some c →
      p c = true ∧ ∃ pre post, l = pre ++ c :: post ∧ ∀ x ∈ pre, p x = false := by
  intro l
  induction l with
  | nil => intro h; simp at h
  | cons a t ih =>
    intro h
    cases hp : p a with
    | true =>
      rw [List.find?_cons_of_pos t hp] at h
      have hac := Option.some.inj h
      subst hac
      exact ⟨hp, [], t, rfl, by simp⟩
    | false =>
      rw [List.find?_cons_of_neg t (by simp [hp])] at h
      obtain ⟨hc, pre, post, rfl, hpre⟩ := ih h
      refine ⟨hc, a :: pre, post, rfl, ?_⟩
      intro x hx
      rcases List.mem_cons.1 hx with rfl | hx2
      · exact hp
      · exact hpre x hx2

/-- C7 counterexample: when the characters collection yields no sample
document (an empty dict, falsy in Python), _sample_fields silently falls
back to the default field names — character resolves to the literal name
character — instead of failing with an error for the unresolvable roles. -/
theorem C7_counterexample :
    c7s.characters = [] ∧
    (sample_fields c7s).toOption.map
      (fun f => (f.character_name, f.characters_movie_id, f.characters_person_id)) =
      some ("character", "movie_id", "person_id") := by
  decide

/-- C7 (amended): for every role resolved through the candidate scan,
_first_key returns the first candidate present in the sample in priority
order, and when no candidate is present it fails with an error naming the
role-and-collection context and the candidate list; exception: when the
characters collection yields no sample document, _sample_fields silently
substitutes the default field names instead of failing. -/
theorem C7_amended :
    (∀ (doc cands : List String) (ctx c : String),
        first_key doc cands ctx = Except.ok c →
          doc.contains c = true ∧
          ∃ pre post, cands = pre ++ c :: post ∧
            ∀ c2 ∈ pre, doc.contains c2 = false) ∧
    (∀ (doc cands : List String) (ctx : String),
        (∀ c ∈ cands, doc.contains c = false) →
          first_key doc cands ctx =
            Except.error ("[" ++ ctx ++ "] no field found among " ++
              String.intercalate ", " cands)) ∧
    (sample_fields c7s).toOption.map (fun f => f.character_name) = some "character" := by
  refine ⟨?_, ?_, ?_⟩
  · intro doc cands ctx c h
    unfold first_key at h
    cases hf : cands.find? (fun c2 => doc.contains c2) with
    | none =>
      rw [hf] at h
      simp at h
    | some c3 =>
      rw [hf] at h
      have hcc := Except.ok.inj h
      subst hcc
      exact find?_decomp cands hf
  · intro doc cands ctx hall
    unfold first_key
    rw [List.find?_eq_none.2 (fun x hx => by rw [hall x hx]; exact fun hcc => nomatch hcc)]
  · decide

/-- C7 witness: the priority-order statement applied to a sample holding
the field movie_id, with the candidate list of the movies collection. -/
theorem C7_witness :
    (["x", "movie_id"] : List String).contains "movie_id" = true ∧
    ∃ pre post, ["movie_id", "id"] = pre ++ "movie_id" :: post ∧
      ∀ c2 ∈ pre, (["x", "movie_id"] : List String).contains c2 = false :=
  C7_amended.1 ["x", "movie_id"] ["movie_id", "id"] "movies.movie_id" "movie_id"
    (by rfl)

/-! ## Claim C9 — idempotence of the index controller -/

/-- The state change of one CREATE INDEX IF NOT EXISTS. -/
def addIdx (n : String) (s : List String) : List String :=
  if s.contains n then s else n :: s

theorem exec_create (n : String) (s : List String) :
    execStmt (Stmt.createIndex n true) s = Except.ok (addIdx n s) := by
  show (if s.contains n then
      if (true : Bool) then Except.ok s
      else Except.error ("index " ++ n ++ " already exists")
    else Except.ok (n :: s)) = _
  unfold addIdx
  split <;> rfl

/-- The state change of one DROP INDEX IF EXISTS. -/
def delIdx (n : String) (s : List String) : List String :=
  s.filter (fun m => !(m == n))

theorem filter_ne_of_absent {n : String} {s : List String}
    (h : s.contains n = false) : s.filter (fun m => !(m == n)) = s := by
  rw [List.filter_eq_self]
  intro m hm
  rw [Bool.not_eq_true', beq_eq_false_iff_ne]
  rintro rfl
  have h2 : s.contains m = true := List.elem_iff.2 hm
  rw [h2] at h
  cases h

theorem exec_drop (n : String) (s : List String) :
    execStmt (Stmt.dropIndex n true) s = Except.ok (delIdx n s) := by
  show (if s.contains n then Except.ok (s.filter (fun m => !(m == n)))
    else if (true : Bool) then Except.ok s
    else Except.error ("no such index: " ++ n)) = _
  unfold delIdx
  cases hc : s.contains n with
  | true => rw [if_pos rfl]
  | false =>
    rw [if_neg (fun hcc => nomatch hcc), if_pos rfl, filter_ne_of_absent hc]

/-- The state after the whole CREATE loop. -/
def applyAll (ns : List String) (s : List String) : List String :=
  ns.foldl (fun acc n => addIdx n acc) s

/-- The state after the whole DROP loop. -/
def delAll (ns : List String) (s : List String) : List String :=
  ns.foldl (fun acc n => delIdx n acc) s

theorem runStmts_creates :
    ∀ (ns : List String) (s : List String),
      runStmts (ns.map (fun n => Stmt.createIndex n true)) s =
        Except.ok (applyAll ns s)
  | [], _ => rfl
  | n :: t, s => by
    show (match execStmt (Stmt.createIndex n true) s with
      | Except.ok s2 => runStmts (t.map (fun n => Stmt.createIndex n true)) s2
      | Except.error e => Except.error e) = _
    rw [exec_create]
    exact runStmts_creates t (addIdx n s)

theorem runStmts_drops :
    ∀ (ns : List String) (s : List String),
      runStmts (ns.map (fun n => Stmt.dropIndex n true)) s =
        Except.ok (delAll ns s)
  | [], _ => rfl
  | n :: t, s => by
    show (match execStmt (Stmt.dropIndex n true) s with
      | Except.ok s2 => runStmts (t.map (fun n => Stmt.dropIndex n true)) s2
      | Except.error e => Except.error e) = _
    rw [exec_drop]
    exact runStmts_drops t (delIdx n s)

theorem contains_addIdx_self (n : String) (s : List String) :
    (addIdx n s).contains n = true := by
  unfold addIdx
  split
  · assumption
  · simp [List.contains_cons]

theorem contains_addIdx_mono {m : String} (n : String) (s : List String)
    (h : s.contains m = true) : (addIdx n s).contains m = true := by
  unfold addIdx
  split
  · exact h
  · rw [List.contains_cons, h, Bool.or_true]

theorem contains_applyAll_mono {m : String} :
    ∀ (ns : List String) (s : List String),
      s.contains m = true → (applyAll ns s).contains m = true
  | [], _, h => h
  | n :: t, s, h => contains_applyAll_mono t (addIdx n s) (contains_addIdx_mono n s h)

theorem contains_applyAll_of_mem {n : String} :
    ∀ (ns : List String) (s : List String), n ∈ ns →
      (applyAll ns s).contains n = true
  | [], _, h => absurd h (by simp)
  | k :: t, s, h => by
    rcases List.mem_cons.1 h with rfl | h2
    · exact contains_applyAll_mono t (addIdx n s) (contains_addIdx_self n s)
    · exact contains_applyAll_of_mem t (addIdx k s) h2

theorem addIdx_of_contains {n : String} {s : List String}
    (h : s.contains n = true) : addIdx n s = s := by
  unfold addIdx
  rw [if_pos h]

theorem applyAll_of_contained :
    ∀ (ns : List String) (s : List String),
      (∀ n ∈ ns, s.contains n = true) → applyAll ns s = s
  | [], _, _ => rfl
  | k :: t, s, h => by
    show applyAll t (addIdx k s) = s
    rw [addIdx_of_contains (h k (by simp))]
    exact applyAll_of_contained t s (fun n hn => h n (List.mem_cons_of_mem _ hn))

theorem contains_delIdx_absent (n : String) (s : List String) :
    (delIdx n s).contains n = false := by
  rw [Bool.eq_false_iff]
  intro hc
  have hmem := List.elem_iff.1 hc
  have := List.mem_filter.1 hmem
  simp at this

theorem contains_delIdx_of {m : String} (n : String) (s : List String)
    (h : (delIdx n s).contains m = true) : s.contains m = true := by
  have hmem := List.elem_iff.1 h
  exact List.elem_iff.2 (List.mem_filter.1 hmem).1

theorem contains_delAll_none {m : String} :
    ∀ (ns : List String) (s : List String),
      s.contains m = false → (delAll ns s).contains m = false
  | [], _, h => h
  | n :: t, s, h => by
    refine contains_delAll_none t (delIdx n s) ?_
    rw [Bool.eq_false_iff]
    intro hc
    rw [Bool.eq_false_iff] at h
    exact h (contains_delIdx_of n s hc)

theorem contains_delAll_of_mem {n : String} :
    ∀ (ns : List String) (s : List String), n ∈ ns →
      (delAll ns s).contains n = false
  | [], _, h => absurd h (by simp)
  | k :: t, s, h => by
    rcases List.mem_cons.1 h with rfl | h2
    · exact contains_delAll_none t (delIdx n s) (contains_delIdx_absent n s)
    · exact contains_delAll_of_mem t (delIdx k s) h2

theorem delIdx_of_absent {n : String} {s : List String}
    (h : s.contains n = false) : delIdx n s = s :=
  filter_ne_of_absent h

theorem delAll_of_absent :
    ∀ (ns : List String) (s : List String),
      (∀ n ∈ ns, s.contains n = false) → delAll ns s = s
  | [], _, _ => rfl
  | k :: t, s, h => by
    show delAll t (delIdx k s) = s
    rw [delIdx_of_absent (h k (by simp))]
    exact delAll_of_absent t s (fun n hn => h n (List.mem_cons_of_mem _ hn))

/-- C9: the CREATE INDEX IF NOT EXISTS loop succeeds from any index state,
and running it again from the reached state succeeds and changes nothing;
likewise the DROP INDEX IF EXISTS loop is idempotent, and neither loop ever
raises a duplicate-index or missing-index error. -/
theorem C9_idempotent :
    (∀ s : List String, ∃ t, apply_sqlite_indexes s = Except.ok t ∧
      apply_sqlite_indexes t = Except.ok t) ∧
    (∀ s : List String, ∃ t, drop_sqlite_indexes s = Except.ok t ∧
      drop_sqlite_indexes t = Except.ok t) := by
  constructor
  · intro s
    refine ⟨applyAll indexNames s, runStmts_creates indexNames s, ?_⟩
    unfold apply_sqlite_indexes
    rw [runStmts_creates, applyAll_of_contained indexNames _
      (fun n hn => contains_applyAll_of_mem indexNames s hn)]
  · intro s
    refine ⟨delAll indexNames s, runStmts_drops indexNames s, ?_⟩
    unfold drop_sqlite_indexes
    rw [runStmts_drops, delAll_of_absent indexNames _
      (fun n hn => contains_delAll_of_mem indexNames s hn)]

end BDA
